import Mathlib

/-!
Shallow embedding of the Agrifood Burdens Explorer front end
(React application: App.js, components/Map.js, components/ControlPanel.js,
components/Legend.js, components/InfoPanel.js, layers/burdenConfig.js).

The embedding models the UI state held by the root component (App.js),
the four state-transition callbacks, and the map-side layer registry and
synchronization function (Map.js).  Layer identifiers and layer keys are
kept as strings, exactly as in the source.  Opacity values are modelled
as rationals; the JavaScript numbers involved (0.9, 0.85, 0.75, 0.7, 0.5
and slider steps of 0.05) are all exactly representable, and the only
arithmetic performed on them is one multiplication by 0.5.
-/

namespace Burdens

/-- Keys of `BURDEN_LAYERS` (burdenConfig.js), in object insertion order,
as produced by `Object.keys(BURDEN_LAYERS)`. -/
def burdenLayerKeys : List String :=
  ["env_footprint", "weather_extremes", "income_poverty", "malnutrition"]

/-- The literal list `["strict", "liberal"]` iterated over by the loops in
Map.js (`addAllSources`, `addAllLayers`, `syncLayers`). -/
def thresholdKeys : List String := ["strict", "liberal"]

/-- Rendered state of a single mapbox layer: the `visibility` layout
property (`true` for "visible", `false` for "none") and the paint
properties touched by the code (`raster-opacity` / `circle-opacity`
stored in `opacity`, and `circle-stroke-opacity` in `strokeOpacity`;
the stroke field is only meaningful for the breadbasket circle layer). -/
structure LayerState where
  visibility : Bool
  opacity : ℚ
  strokeOpacity : ℚ
deriving DecidableEq

/-- The map style state, as a total assignment of layer ids to layer
states.  Only the eleven ids registered by `addAllLayers` are ever
touched by the code under consideration. -/
def MapState : Type := String → LayerState

/-- `m.setLayoutProperty(lid, "visibility", v)` (Map.js). -/
def setLayoutVisibility (m : MapState) (lid : String) (v : Bool) : MapState :=
  fun l => if l = lid then { m l with visibility := v } else m l

/-- `m.setPaintProperty(lid, "...-opacity", o)` (Map.js). -/
def setPaintOpacity (m : MapState) (lid : String) (o : ℚ) : MapState :=
  fun l => if l = lid then { m l with opacity := o } else m l

/-- `m.setPaintProperty(lid, "circle-stroke-opacity", o)` (Map.js). -/
def setPaintStrokeOpacity (m : MapState) (lid : String) (o : ℚ) : MapState :=
  fun l => if l = lid then { m l with strokeOpacity := o } else m l

/-- `m.addLayer({id: lid, ...})`: registers the layer with the given
initial layout/paint state (Map.js `addAllLayers`). -/
def addLayer (m : MapState) (lid : String) (ls : LayerState) : MapState :=
  fun l => if l = lid then ls else m l

/-- Map.js `addAllLayers`: the breadbasket circle layer (visible,
`circle-opacity` 0.9, `circle-stroke-opacity` 0.5), the two co-occurrence
rasters (strict visible, liberal hidden, `raster-opacity` 0.75), and the
eight individual burden rasters (hidden, `raster-opacity` 0.7). -/
def addAllLayers (m : MapState) : MapState :=
  let m := addLayer m "breadbaskets-layer" ⟨true, 0.9, 0.5⟩
  let m := thresholdKeys.foldl (fun m t =>
    addLayer m ("raster-cooccurrence-" ++ t) ⟨t == "strict", 0.75, 0⟩) m
  burdenLayerKeys.foldl (fun m key =>
    thresholdKeys.foldl (fun m t =>
      addLayer m ("raster-" ++ key ++ "-" ++ t) ⟨false, 0.7, 0⟩) m) m

/-- The breadbasket block of Map.js `syncLayers`: set the visibility of
`breadbaskets-layer` from `bbActive`, and when active also set
`circle-opacity` to `layerOpacity.breadbaskets ?? 0.9` (passed in as
`op`) and `circle-stroke-opacity` to half of it. -/
def syncBreadbaskets (bbActive : Bool) (op : ℚ) (m : MapState) : MapState :=
  let m := setLayoutVisibility m "breadbaskets-layer" bbActive
  if bbActive then
    let m := setPaintOpacity m "breadbaskets-layer" op
    setPaintStrokeOpacity m "breadbaskets-layer" (op * 0.5)
  else m

/-- Body of the raster loops of Map.js `syncLayers`: compute
`show := isActive && t === thresh`, set the visibility of `lid`
accordingly, and when shown set its `raster-opacity` to `op`
(`layerOpacity[key] ?? default`). -/
def syncRasterLayer (isActive : Bool) (thresh : String) (op : ℚ)
    (lid : String) (t : String) (m : MapState) : MapState :=
  let shown := isActive && (t == thresh)
  let m := setLayoutVisibility m lid shown
  if shown then setPaintOpacity m lid op else m

/-- Map.js `syncLayers`, applied after the map has loaded (so every
`m.getLayer(lid)` guard succeeds for the eleven registered layers). -/
def syncLayers (activeLayers : List String) (layerOpacity : String → Option ℚ)
    (selectedThreshold : String) (m : MapState) : MapState :=
  let thresh := if selectedThreshold = "" then "strict" else selectedThreshold
  let bbActive := activeLayers.contains "breadbaskets"
  let m := syncBreadbaskets bbActive ((layerOpacity "breadbaskets").getD 0.9) m
  let coocActive := activeLayers.contains "cooccurrence"
  let m := thresholdKeys.foldl (fun m t =>
    syncRasterLayer coocActive thresh ((layerOpacity "cooccurrence").getD 0.75)
      ("raster-cooccurrence-" ++ t) t m) m
  burdenLayerKeys.foldl (fun m key =>
    let isActive := activeLayers.contains key
    thresholdKeys.foldl (fun m t =>
      syncRasterLayer isActive thresh ((layerOpacity key).getD 0.7)
        ("raster-" ++ key ++ "-" ++ t) t m) m) m

/-- The UI state owned by the root component (App.js): active layer keys,
per-layer opacity mapping (a JavaScript object, modelled as a finite
map from keys to rationals), selected threshold, and view mode. -/
structure AppState where
  activeLayers : List String
  layerOpacity : String → Option ℚ
  selectedThreshold : String
  viewMode : String

/-- App.js `DEFAULT_ACTIVE_LAYERS`. -/
def DEFAULT_ACTIVE_LAYERS : List String := ["breadbaskets", "cooccurrence"]

/-- App.js `DEFAULT_OPACITY`: breadbaskets 0.85, cooccurrence 0.75, and
0.70 for every key of `BURDEN_LAYERS`; absent for any other key. -/
def DEFAULT_OPACITY : String → Option ℚ := fun k =>
  if k = "breadbaskets" then some 0.85
  else if k = "cooccurrence" then some 0.75
  else if burdenLayerKeys.contains k then some 0.7
  else none

/-- The initial state of App.js: default active layers and opacities,
threshold "strict", view mode "cooccurrence". -/
def defaultAppState : AppState :=
  { activeLayers := DEFAULT_ACTIVE_LAYERS,
    layerOpacity := DEFAULT_OPACITY,
    selectedThreshold := "strict",
    viewMode := "cooccurrence" }

/-- App.js `handleToggle`: remove `key` from the active list if present,
append it otherwise. -/
def handleToggle (st : AppState) (key : String) : AppState :=
  { st with activeLayers :=
      if st.activeLayers.contains key then
        st.activeLayers.filter (fun k => k != key)
      else st.activeLayers ++ [key] }

/-- App.js `handleOpacityChange`: `{ ...prev, [key]: value }`. -/
def handleOpacityChange (st : AppState) (key : String) (value : ℚ) : AppState :=
  { st with layerOpacity := fun k => if k = key then some value else st.layerOpacity k }

/-- App.js `handleThresholdChange`: `setSelectedThreshold(thresh)`. -/
def handleThresholdChange (st : AppState) (thresh : String) : AppState :=
  { st with selectedThreshold := thresh }

/-- App.js `handleViewModeChange`: set the view mode; in "cooccurrence"
mode drop every `BURDEN_LAYERS` key from the active list and append
"cooccurrence" if absent, otherwise (any other mode) drop only
"cooccurrence". -/
def handleViewModeChange (st : AppState) (mode : String) : AppState :=
  if mode == "cooccurrence" then
    { st with
      viewMode := mode
      activeLayers :=
        let cleaned := st.activeLayers.filter (fun k => !(burdenLayerKeys.contains k))
        if cleaned.contains "cooccurrence" then cleaned
        else cleaned ++ ["cooccurrence"] }
  else
    { st with
      viewMode := mode
      activeLayers := st.activeLayers.filter (fun k => k != "cooccurrence") }

/-- The eleven layer ids registered by `addAllLayers`. -/
def allLayerIds : List String :=
  ["breadbaskets-layer",
   "raster-cooccurrence-strict", "raster-cooccurrence-liberal",
   "raster-env_footprint-strict", "raster-env_footprint-liberal",
   "raster-weather_extremes-strict", "raster-weather_extremes-liberal",
   "raster-income_poverty-strict", "raster-income_poverty-liberal",
   "raster-malnutrition-strict", "raster-malnutrition-liberal"]

/-- An all-hidden map state, used as a sample pre-initialization state. -/
def blankMapState : MapState := fun _ => ⟨false, 0, 0⟩

/-- The popup style derived for a hovered feature: a label (possibly
undefined, as in the JavaScript fallback object) and a CSS color. -/
structure FoodGroupStyle where
  label : Option String
  color : String
deriving DecidableEq

/-- burdenConfig.js `FOOD_GROUP_COLORS`: the static food-group color map
keyed by the feature attribute `max_food_group`. -/
def FOOD_GROUP_COLORS : String → Option FoodGroupStyle := fun k =>
  if k = "grains" then some ⟨some "Grains", "#f5c542"⟩
  else if k = "meat_and_fish" then some ⟨some "Meat & Fish", "#ff6b6b"⟩
  else if k = "dairy_and_eggs" then some ⟨some "Dairy & Eggs", "#fff06a"⟩
  else if k = "fruits" then some ⟨some "Fruits", "#7dde60"⟩
  else if k = "vegetables" then some ⟨some "Vegetables", "#3dcc3d"⟩
  else if k = "oils_and_oilseed" then some ⟨some "Oils & Oilseeds", "#e89840"⟩
  else if k = "pulses" then some ⟨some "Pulses", "#c4855c"⟩
  else if k = "starchy_roots" then some ⟨some "Starchy Roots", "#d49ce8"⟩
  else if k = "treenuts" then some ⟨some "Tree Nuts", "#5ea54a"⟩
  else if k = "other" then some ⟨some "Other", "#aaaaaa"⟩
  else none

/-- Map.js `setupHoverEvents`, popup style computation:
`FOOD_GROUP_COLORS[props[groupKey]] || { label: props[groupKey], color: "#888" }`.
The group attribute is an Option because the feature property may be
missing (undefined). -/
def hoverFoodGroup (groupAttr : Option String) : FoodGroupStyle :=
  match groupAttr.bind FOOD_GROUP_COLORS with
  | some fg => fg
  | none => ⟨groupAttr, "#888"⟩

/-- Map.js `setupHoverEvents`, displayed production value:
`Number(props[valueKey] || 0)` — 0 when the attribute is missing. -/
def hoverProductionValue (valueAttr : Option ℚ) : ℚ := valueAttr.getD 0

lemma syncBreadbaskets_apply_self (b : Bool) (op : ℚ) (m : MapState) :
    syncBreadbaskets b op m "breadbaskets-layer" =
      if b then ⟨true, op, op * 0.5⟩
      else { m "breadbaskets-layer" with visibility := false } := by
  unfold syncBreadbaskets setLayoutVisibility setPaintOpacity setPaintStrokeOpacity
  cases b <;> simp

lemma syncBreadbaskets_apply_other (b : Bool) (op : ℚ) (m : MapState) (l : String)
    (h : l ≠ "breadbaskets-layer") : syncBreadbaskets b op m l = m l := by
  unfold syncBreadbaskets setLayoutVisibility setPaintOpacity setPaintStrokeOpacity
  cases b <;> simp [h]

lemma syncRasterLayer_apply_self (a : Bool) (th : String) (op : ℚ) (lid t : String)
    (m : MapState) :
    syncRasterLayer a th op lid t m lid =
      if a && (t == th) then ⟨true, op, (m lid).strokeOpacity⟩
      else { m lid with visibility := false } := by
  unfold syncRasterLayer setLayoutVisibility setPaintOpacity
  cases h : a && (t == th) <;> simp [h]

lemma syncRasterLayer_apply_other (a : Bool) (th : String) (op : ℚ) (lid t : String)
    (m : MapState) (l : String) (h : l ≠ lid) :
    syncRasterLayer a th op lid t m l = m l := by
  unfold syncRasterLayer setLayoutVisibility setPaintOpacity
  cases hs : a && (t == th) <;> simp [h]

lemma lidCoocStrict : ("raster-cooccurrence-" ++ "strict" : String) = "raster-cooccurrence-strict" := rfl

lemma lidCoocLiberal : ("raster-cooccurrence-" ++ "liberal" : String) = "raster-cooccurrence-liberal" := rfl

lemma lidEnvStrict : ("raster-" ++ "env_footprint" ++ "-" ++ "strict" : String) = "raster-env_footprint-strict" := rfl

lemma lidEnvLiberal : ("raster-" ++ "env_footprint" ++ "-" ++ "liberal" : String) = "raster-env_footprint-liberal" := rfl

lemma lidWeaStrict : ("raster-" ++ "weather_extremes" ++ "-" ++ "strict" : String) = "raster-weather_extremes-strict" := rfl

lemma lidWeaLiberal : ("raster-" ++ "weather_extremes" ++ "-" ++ "liberal" : String) = "raster-weather_extremes-liberal" := rfl

lemma lidPovStrict : ("raster-" ++ "income_poverty" ++ "-" ++ "strict" : String) = "raster-income_poverty-strict" := rfl

lemma lidPovLiberal : ("raster-" ++ "income_poverty" ++ "-" ++ "liberal" : String) = "raster-income_poverty-liberal" := rfl

lemma lidMalStrict : ("raster-" ++ "malnutrition" ++ "-" ++ "strict" : String) = "raster-malnutrition-strict" := rfl

lemma lidMalLiberal : ("raster-" ++ "malnutrition" ++ "-" ++ "liberal" : String) = "raster-malnutrition-liberal" := rfl

lemma syncLayers_apply_bb (a : List String) (op : String → Option ℚ) (sel : String)
    (m : MapState) :
    syncLayers a op sel m "breadbaskets-layer" =
      if a.contains "breadbaskets" then
        ⟨true, (op "breadbaskets").getD 0.9, (op "breadbaskets").getD 0.9 * 0.5⟩
      else { m "breadbaskets-layer" with visibility := false } := by
  unfold syncLayers
  simp only [thresholdKeys, burdenLayerKeys, List.foldl_cons, List.foldl_nil,
    lidCoocStrict, lidCoocLiberal, lidEnvStrict, lidEnvLiberal, lidWeaStrict,
    lidWeaLiberal, lidPovStrict, lidPovLiberal, lidMalStrict, lidMalLiberal]
  repeat rw [syncRasterLayer_apply_other _ _ _ _ _ _ _ (by decide)]
  rw [syncBreadbaskets_apply_self]

lemma syncLayers_apply_cooc (a : List String) (op : String → Option ℚ) (sel : String)
    (m : MapState) (t : String) (ht : t ∈ thresholdKeys) :
    syncLayers a op sel m ("raster-cooccurrence-" ++ t) =
      if a.contains "cooccurrence" && (t == if sel = "" then "strict" else sel) then
        ⟨true, (op "cooccurrence").getD 0.75,
          (m ("raster-cooccurrence-" ++ t)).strokeOpacity⟩
      else { m ("raster-cooccurrence-" ++ t) with visibility := false } := by
  simp only [thresholdKeys, List.mem_cons, List.not_mem_nil, or_false] at ht
  rcases ht with rfl | rfl <;>
    (unfold syncLayers
     simp only [thresholdKeys, burdenLayerKeys, List.foldl_cons, List.foldl_nil,
       lidCoocStrict, lidCoocLiberal, lidEnvStrict, lidEnvLiberal, lidWeaStrict,
       lidWeaLiberal, lidPovStrict, lidPovLiberal, lidMalStrict, lidMalLiberal]
     repeat rw [syncRasterLayer_apply_other _ _ _ _ _ _ _ (by decide)]
     rw [syncRasterLayer_apply_self]
     repeat rw [syncRasterLayer_apply_other _ _ _ _ _ _ _ (by decide)]
     rw [syncBreadbaskets_apply_other _ _ _ _ (by decide)])

lemma syncLayers_apply_burden (a : List String) (op : String → Option ℚ) (sel : String)
    (m : MapState) (key t : String) (hk : key ∈ burdenLayerKeys) (ht : t ∈ thresholdKeys) :
    syncLayers a op sel m ("raster-" ++ key ++ "-" ++ t) =
      if a.contains key && (t == if sel = "" then "strict" else sel) then
        ⟨true, (op key).getD 0.7, (m ("raster-" ++ key ++ "-" ++ t)).strokeOpacity⟩
      else { m ("raster-" ++ key ++ "-" ++ t) with visibility := false } := by
  simp only [thresholdKeys, burdenLayerKeys, List.mem_cons, List.not_mem_nil, or_false]
    at hk ht
  rcases hk with rfl | rfl | rfl | rfl <;> rcases ht with rfl | rfl <;>
    (unfold syncLayers
     simp only [thresholdKeys, burdenLayerKeys, List.foldl_cons, List.foldl_nil,
       lidCoocStrict, lidCoocLiberal, lidEnvStrict, lidEnvLiberal, lidWeaStrict,
       lidWeaLiberal, lidPovStrict, lidPovLiberal, lidMalStrict, lidMalLiberal]
     repeat rw [syncRasterLayer_apply_other _ _ _ _ _ _ _ (by decide)]
     rw [syncRasterLayer_apply_self]
     repeat rw [syncRasterLayer_apply_other _ _ _ _ _ _ _ (by decide)]
     rw [syncBreadbaskets_apply_other _ _ _ _ (by decide)])

lemma syncLayers_apply_frame (a : List String) (op : String → Option ℚ) (sel : String)
    (m : MapState) (l : String) (hl : l ∉ allLayerIds) :
    syncLayers a op sel m l = m l := by
  simp only [allLayerIds, List.mem_cons, List.not_mem_nil, or_false, not_or] at hl
  obtain ⟨h1, h2, h3, h4, h5, h6, h7, h8, h9, h10, h11⟩ := hl
  unfold syncLayers
  simp only [thresholdKeys, burdenLayerKeys, List.foldl_cons, List.foldl_nil,
    lidCoocStrict, lidCoocLiberal, lidEnvStrict, lidEnvLiberal, lidWeaStrict,
    lidWeaLiberal, lidPovStrict, lidPovLiberal, lidMalStrict, lidMalLiberal]
  repeat rw [syncRasterLayer_apply_other _ _ _ _ _ _ _ (by assumption)]
  exact syncBreadbaskets_apply_other _ _ _ _ h1

lemma contains_iff (l : List String) (k : String) : l.contains k = true ↔ k ∈ l :=
  List.elem_iff

lemma lidCoocT (t : String) :
    ("raster-" ++ "cooccurrence" ++ "-" ++ t : String) = "raster-cooccurrence-" ++ t := rfl

lemma bb_visible_iff (a : List String) (op : String → Option ℚ) (sel : String)
    (m : MapState) :
    (syncLayers a op sel m "breadbaskets-layer").visibility = true ↔
      "breadbaskets" ∈ a := by
  rw [syncLayers_apply_bb]
  cases hc : a.contains "breadbaskets" <;>
    simp_all [contains_iff]

lemma raster_visible_iff (a : List String) (op : String → Option ℚ) (sel : String)
    (m : MapState) (key t : String) (hk : key ∈ "cooccurrence" :: burdenLayerKeys)
    (ht : t ∈ thresholdKeys) (hsel : sel ∈ thresholdKeys) :
    (syncLayers a op sel m ("raster-" ++ key ++ "-" ++ t)).visibility = true ↔
      (key ∈ a ∧ t = sel) := by
  simp only [thresholdKeys, burdenLayerKeys, List.mem_cons, List.not_mem_nil, or_false]
    at hk ht hsel
  rcases hk with rfl | rfl | rfl | rfl | rfl <;> rcases ht with rfl | rfl <;>
    rcases hsel with rfl | rfl <;>
    (first
      | (rw [lidCoocT, syncLayers_apply_cooc _ _ _ _ _ (by decide)]
         cases hc : a.contains "cooccurrence" <;> simp_all [contains_iff])
      | (rw [syncLayers_apply_burden _ _ _ _ _ _ (by decide) (by decide)]
         cases hc : a.contains _ <;> simp_all [contains_iff]))

/-- Claim C1: for every active-layer set, opacity mapping and selected
threshold, `syncLayers` yields exactly this visible set: the breadbaskets
point layer is visible iff "breadbaskets" is active, and each of the ten
rasters (co-occurrence and the four burdens, in strict and liberal
variants) is visible iff its key is active and its threshold variant
equals the selected threshold; consequently at most one of the two
threshold variants of any raster key is visible. -/
theorem C1_visible_layer_set (a : List String) (op : String → Option ℚ)
    (sel : String) (m : MapState) (hsel : sel ∈ thresholdKeys) :
    ((syncLayers a op sel m "breadbaskets-layer").visibility = true ↔
      "breadbaskets" ∈ a)
    ∧ (∀ key ∈ "cooccurrence" :: burdenLayerKeys, ∀ t ∈ thresholdKeys,
        ((syncLayers a op sel m ("raster-" ++ key ++ "-" ++ t)).visibility = true ↔
          (key ∈ a ∧ t = sel)))
    ∧ (∀ key ∈ "cooccurrence" :: burdenLayerKeys,
        ¬((syncLayers a op sel m ("raster-" ++ key ++ "-" ++ "strict")).visibility = true
          ∧ (syncLayers a op sel m ("raster-" ++ key ++ "-" ++ "liberal")).visibility
              = true)) := by
  refine ⟨bb_visible_iff a op sel m,
    fun key hk t ht => raster_visible_iff a op sel m key t hk ht hsel,
    fun key hk h => ?_⟩
  obtain ⟨hs, hl⟩ := h
  rw [raster_visible_iff a op sel m key _ hk (by decide) hsel] at hs
  rw [raster_visible_iff a op sel m key _ hk (by decide) hsel] at hl
  exact absurd (hs.2.trans hl.2.symm) (by decide)

theorem C1_visible_layer_set_witness :
    (("strict" : String) ∈ thresholdKeys)
    ∧ ((syncLayers ["breadbaskets"] (fun _ => none) "strict" blankMapState
        "breadbaskets-layer").visibility = true ↔ "breadbaskets" ∈ ["breadbaskets"]) :=
  ⟨by decide,
    (C1_visible_layer_set ["breadbaskets"] (fun _ => none) "strict" blankMapState
      (by decide)).1⟩

/-- Claim C4: `syncLayers` is idempotent: applying it twice with the same
(active set, opacity mapping, threshold) triple yields the same per-layer
visibility and opacity state as applying it once, from any starting
map-layer state. -/
theorem C4_syncLayers_idempotent (a : List String) (op : String → Option ℚ)
    (sel : String) (m : MapState) :
    syncLayers a op sel (syncLayers a op sel m) = syncLayers a op sel m := by
  funext l
  by_cases h1 : l = "breadbaskets-layer"
  · subst h1
    rw [syncLayers_apply_bb, syncLayers_apply_bb]
    split_ifs <;> simp [syncLayers_apply_bb]
  by_cases h2 : l = "raster-cooccurrence-strict"
  · subst h2
    rw [← lidCoocStrict,
      syncLayers_apply_cooc _ _ _ _ _ (by decide),
      syncLayers_apply_cooc _ _ _ _ _ (by decide)]
    split_ifs <;> simp
  by_cases h3 : l = "raster-cooccurrence-liberal"
  · subst h3
    rw [← lidCoocLiberal,
      syncLayers_apply_cooc _ _ _ _ _ (by decide),
      syncLayers_apply_cooc _ _ _ _ _ (by decide)]
    split_ifs <;> simp
  by_cases h4 : l = "raster-env_footprint-strict"
  · subst h4
    rw [← lidEnvStrict,
      syncLayers_apply_burden _ _ _ _ _ _ (by decide) (by decide),
      syncLayers_apply_burden _ _ _ _ _ _ (by decide) (by decide)]
    split_ifs <;> simp
  by_cases h5 : l = "raster-env_footprint-liberal"
  · subst h5
    rw [← lidEnvLiberal,
      syncLayers_apply_burden _ _ _ _ _ _ (by decide) (by decide),
      syncLayers_apply_burden _ _ _ _ _ _ (by decide) (by decide)]
    split_ifs <;> simp
  by_cases h6 : l = "raster-weather_extremes-strict"
  · subst h6
    rw [← lidWeaStrict,
      syncLayers_apply_burden _ _ _ _ _ _ (by decide) (by decide),
      syncLayers_apply_burden _ _ _ _ _ _ (by decide) (by decide)]
    split_ifs <;> simp
  by_cases h7 : l = "raster-weather_extremes-liberal"
  · subst h7
    rw [← lidWeaLiberal,
      syncLayers_apply_burden _ _ _ _ _ _ (by decide) (by decide),
      syncLayers_apply_burden _ _ _ _ _ _ (by decide) (by decide)]
    split_ifs <;> simp
  by_cases h8 : l = "raster-income_poverty-strict"
  · subst h8
    rw [← lidPovStrict,
      syncLayers_apply_burden _ _ _ _ _ _ (by decide) (by decide),
      syncLayers_apply_burden _ _ _ _ _ _ (by decide) (by decide)]
    split_ifs <;> simp
  by_cases h9 : l = "raster-income_poverty-liberal"
  · subst h9
    rw [← lidPovLiberal,
      syncLayers_apply_burden _ _ _ _ _ _ (by decide) (by decide),
      syncLayers_apply_burden _ _ _ _ _ _ (by decide) (by decide)]
    split_ifs <;> simp
  by_cases h10 : l = "raster-malnutrition-strict"
  · subst h10
    rw [← lidMalStrict,
      syncLayers_apply_burden _ _ _ _ _ _ (by decide) (by decide),
      syncLayers_apply_burden _ _ _ _ _ _ (by decide) (by decide)]
    split_ifs <;> simp
  by_cases h11 : l = "raster-malnutrition-liberal"
  · subst h11
    rw [← lidMalLiberal,
      syncLayers_apply_burden _ _ _ _ _ _ (by decide) (by decide),
      syncLayers_apply_burden _ _ _ _ _ _ (by decide) (by decide)]
    split_ifs <;> simp
  have hl : l ∉ allLayerIds := by
    simp [allLayerIds, h1, h2, h3, h4, h5, h6, h7, h8, h9, h10, h11]
  rw [syncLayers_apply_frame _ _ _ _ _ hl, syncLayers_apply_frame _ _ _ _ _ hl]

/-- Claim C5: in the default initial state (active set {breadbaskets,
cooccurrence}, threshold "strict", view mode "cooccurrence"), after the
layers are registered and synchronized exactly the breadbaskets point
layer and the strict co-occurrence raster are visible; the liberal
co-occurrence raster and all eight individual-burden rasters are hidden,
whatever the pre-existing basemap state. -/
theorem C5_default_scenario (m0 : MapState) :
    defaultAppState.viewMode = "cooccurrence"
    ∧ defaultAppState.selectedThreshold = "strict"
    ∧ (syncLayers defaultAppState.activeLayers defaultAppState.layerOpacity
        defaultAppState.selectedThreshold (addAllLayers m0)
        "breadbaskets-layer").visibility = true
    ∧ (syncLayers defaultAppState.activeLayers defaultAppState.layerOpacity
        defaultAppState.selectedThreshold (addAllLayers m0)
        "raster-cooccurrence-strict").visibility = true
    ∧ (syncLayers defaultAppState.activeLayers defaultAppState.layerOpacity
        defaultAppState.selectedThreshold (addAllLayers m0)
        "raster-cooccurrence-liberal").visibility = false
    ∧ (∀ key ∈ burdenLayerKeys, ∀ t ∈ thresholdKeys,
        (syncLayers defaultAppState.activeLayers defaultAppState.layerOpacity
          defaultAppState.selectedThreshold (addAllLayers m0)
          ("raster-" ++ key ++ "-" ++ t)).visibility = false) := by
  refine ⟨rfl, rfl, rfl, rfl, rfl, fun key hk t ht => ?_⟩
  simp only [burdenLayerKeys, thresholdKeys, List.mem_cons, List.not_mem_nil, or_false]
    at hk ht
  rcases hk with rfl | rfl | rfl | rfl <;> rcases ht with rfl | rfl <;> rfl

theorem C5_default_scenario_witness :
    ("env_footprint" ∈ burdenLayerKeys)
    ∧ ("strict" ∈ thresholdKeys)
    ∧ (syncLayers defaultAppState.activeLayers defaultAppState.layerOpacity
        defaultAppState.selectedThreshold (addAllLayers blankMapState)
        ("raster-" ++ "env_footprint" ++ "-" ++ "strict")).visibility = false :=
  ⟨by decide, by decide,
    (C5_default_scenario blankMapState).2.2.2.2.2 "env_footprint" (by decide)
      "strict" (by decide)⟩

lemma contains_eq_false (l : List String) (k : String) (h : k ∉ l) :
    l.contains k = false := by
  cases hc : l.contains k
  · rfl
  · exact absurd ((contains_iff _ _).mp hc) h

lemma nodup_append_singleton (l : List String) (k : String) (hl : l.Nodup)
    (hk : k ∉ l) : (l ++ [k]).Nodup := by
  rw [List.nodup_append]
  exact ⟨hl, List.nodup_singleton k, fun a ha hb => by
    simp only [List.mem_singleton] at hb
    subst hb
    exact hk ha⟩

/-- Claim C2: switching the view mode to "cooccurrence" produces an active
set with no individual-burden key, containing "cooccurrence", and leaving
every other key (such as "breadbaskets") in place. -/
theorem C2_viewmode_cooccurrence (st : AppState) :
    (∀ b ∈ burdenLayerKeys, b ∉ (handleViewModeChange st "cooccurrence").activeLayers)
    ∧ "cooccurrence" ∈ (handleViewModeChange st "cooccurrence").activeLayers
    ∧ (∀ k, k ∉ burdenLayerKeys → k ≠ "cooccurrence" →
        (k ∈ (handleViewModeChange st "cooccurrence").activeLayers ↔
          k ∈ st.activeLayers)) := by
  have hres : (handleViewModeChange st "cooccurrence").activeLayers =
      if (st.activeLayers.filter
          (fun k => !(burdenLayerKeys.contains k))).contains "cooccurrence" = true
      then st.activeLayers.filter (fun k => !(burdenLayerKeys.contains k))
      else st.activeLayers.filter (fun k => !(burdenLayerKeys.contains k)) ++
        ["cooccurrence"] := rfl
  by_cases hcm : "cooccurrence" ∈
      st.activeLayers.filter (fun k => !(burdenLayerKeys.contains k))
  · have hres2 : (handleViewModeChange st "cooccurrence").activeLayers =
        st.activeLayers.filter (fun k => !(burdenLayerKeys.contains k)) := by
      rw [hres, if_pos ((contains_iff _ _).mpr hcm)]
    refine ⟨fun b hb hmem => ?_, ?_, fun k hk hkc => ?_⟩
    · rw [hres2, List.mem_filter] at hmem
      have hb2 := hmem.2
      simp only [Bool.not_eq_true'] at hb2
      rw [(contains_iff _ _).mpr hb] at hb2
      exact absurd hb2 (by decide)
    · rw [hres2]
      exact hcm
    · rw [hres2, List.mem_filter]
      constructor
      · exact fun hm => hm.1
      · intro hm
        exact ⟨hm, by simpa using hk⟩
  · have hres2 : (handleViewModeChange st "cooccurrence").activeLayers =
        st.activeLayers.filter (fun k => !(burdenLayerKeys.contains k)) ++
          ["cooccurrence"] := by
      rw [hres, if_neg (fun hcc => hcm ((contains_iff _ _).mp hcc))]
    refine ⟨fun b hb hmem => ?_, ?_, fun k hk hkc => ?_⟩
    · rw [hres2, List.mem_append] at hmem
      rcases hmem with hmem | hmem
      · rw [List.mem_filter] at hmem
        have hb2 := hmem.2
        simp only [Bool.not_eq_true'] at hb2
        rw [(contains_iff _ _).mpr hb] at hb2
        exact absurd hb2 (by decide)
      · rw [List.mem_singleton] at hmem
        subst hmem
        exact absurd hb (by decide)
    · rw [hres2]
      exact List.mem_append_right _ (List.mem_singleton_self _)
    · rw [hres2, List.mem_append, List.mem_singleton, List.mem_filter]
      constructor
      · rintro (hm | rfl)
        · exact hm.1
        · exact absurd rfl hkc
      · intro hm
        exact Or.inl ⟨hm, by simpa using hk⟩

theorem C2_viewmode_cooccurrence_witness :
    ("weather_extremes" ∉
      (handleViewModeChange defaultAppState "cooccurrence").activeLayers)
    ∧ "cooccurrence" ∈ (handleViewModeChange defaultAppState "cooccurrence").activeLayers
    ∧ ("breadbaskets" ∈ (handleViewModeChange defaultAppState "cooccurrence").activeLayers
        ↔ "breadbaskets" ∈ defaultAppState.activeLayers) :=
  ⟨(C2_viewmode_cooccurrence defaultAppState).1 "weather_extremes" (by decide),
    (C2_viewmode_cooccurrence defaultAppState).2.1,
    (C2_viewmode_cooccurrence defaultAppState).2.2 "breadbaskets" (by decide) (by decide)⟩

/-- Claim C3: switching the view mode to "individual" produces an active
set that does not contain "cooccurrence" and whose membership is otherwise
identical to the prior set. -/
theorem C3_viewmode_individual (st : AppState) :
    "cooccurrence" ∉ (handleViewModeChange st "individual").activeLayers
    ∧ (∀ k, k ≠ "cooccurrence" →
        (k ∈ (handleViewModeChange st "individual").activeLayers ↔
          k ∈ st.activeLayers)) := by
  have hres : (handleViewModeChange st "individual").activeLayers =
      st.activeLayers.filter (fun k => k != "cooccurrence") := by
    simp [handleViewModeChange]
  refine ⟨?_, fun k hk => ?_⟩
  · rw [hres]
    simp [List.mem_filter]
  · rw [hres]
    simp [List.mem_filter, hk]

theorem C3_viewmode_individual_witness :
    "cooccurrence" ∉ (handleViewModeChange defaultAppState "individual").activeLayers
    ∧ ("breadbaskets" ∈ (handleViewModeChange defaultAppState "individual").activeLayers
        ↔ "breadbaskets" ∈ defaultAppState.activeLayers) :=
  ⟨(C3_viewmode_individual defaultAppState).1,
    (C3_viewmode_individual defaultAppState).2 "breadbaskets" (by decide)⟩

/-- Claim C8: the active-layer collection is a set: the default active
list is duplicate-free, and each of the four transitions (toggle,
opacity change, threshold change, view-mode change) preserves the
no-duplicates invariant of the active-layer list. -/
theorem C8_active_layers_nodup :
    DEFAULT_ACTIVE_LAYERS.Nodup
    ∧ (∀ st key, st.activeLayers.Nodup → (handleToggle st key).activeLayers.Nodup)
    ∧ (∀ st key v, st.activeLayers.Nodup →
        (handleOpacityChange st key v).activeLayers.Nodup)
    ∧ (∀ st t, st.activeLayers.Nodup →
        (handleThresholdChange st t).activeLayers.Nodup)
    ∧ (∀ st mode, st.activeLayers.Nodup →
        (handleViewModeChange st mode).activeLayers.Nodup) := by
  refine ⟨by decide, fun st key h => ?_, fun st key v h => h, fun st t h => h,
    fun st mode h => ?_⟩
  · have hres : (handleToggle st key).activeLayers =
        if st.activeLayers.contains key = true then
          st.activeLayers.filter (fun k => k != key)
        else st.activeLayers ++ [key] := rfl
    rw [hres]
    by_cases hc : key ∈ st.activeLayers
    · rw [if_pos ((contains_iff _ _).mpr hc)]
      exact h.filter _
    · rw [if_neg (fun hcc => hc ((contains_iff _ _).mp hcc))]
      exact nodup_append_singleton _ _ h hc
  · by_cases hm : (mode == "cooccurrence") = true
    · have hres : (handleViewModeChange st mode).activeLayers =
          if (st.activeLayers.filter
              (fun k => !(burdenLayerKeys.contains k))).contains "cooccurrence" = true
          then st.activeLayers.filter (fun k => !(burdenLayerKeys.contains k))
          else st.activeLayers.filter (fun k => !(burdenLayerKeys.contains k)) ++
            ["cooccurrence"] := by
        unfold handleViewModeChange
        rw [if_pos hm]
      rw [hres]
      by_cases hc : "cooccurrence" ∈
          st.activeLayers.filter (fun k => !(burdenLayerKeys.contains k))
      · rw [if_pos ((contains_iff _ _).mpr hc)]
        exact h.filter _
      · rw [if_neg (fun hcc => hc ((contains_iff _ _).mp hcc))]
        exact nodup_append_singleton _ _ (h.filter _) hc
    · have hres : (handleViewModeChange st mode).activeLayers =
          st.activeLayers.filter (fun k => k != "cooccurrence") := by
        unfold handleViewModeChange
        rw [if_neg hm]
      rw [hres]
      exact h.filter _

theorem C8_active_layers_nodup_witness :
    (handleToggle defaultAppState "env_footprint").activeLayers.Nodup
    ∧ (handleViewModeChange defaultAppState "individual").activeLayers.Nodup :=
  ⟨C8_active_layers_nodup.2.1 defaultAppState "env_footprint" (by decide),
    C8_active_layers_nodup.2.2.2.2 defaultAppState "individual" (by decide)⟩

/-- Claim C6: with co-occurrence active and threshold "strict", changing
the threshold to "liberal" makes the liberal co-occurrence raster visible
and the strict one hidden, and leaves the active-key set unchanged. -/
theorem C6_threshold_swap (st : AppState) (m : MapState)
    (hcooc : "cooccurrence" ∈ st.activeLayers)
    (_hsel : st.selectedThreshold = "strict") :
    ((syncLayers (handleThresholdChange st "liberal").activeLayers
        (handleThresholdChange st "liberal").layerOpacity
        (handleThresholdChange st "liberal").selectedThreshold m)
        "raster-cooccurrence-liberal").visibility = true
    ∧ ((syncLayers (handleThresholdChange st "liberal").activeLayers
        (handleThresholdChange st "liberal").layerOpacity
        (handleThresholdChange st "liberal").selectedThreshold m)
        "raster-cooccurrence-strict").visibility = false
    ∧ (handleThresholdChange st "liberal").activeLayers = st.activeLayers := by
  refine ⟨?_, ?_, rfl⟩
  · exact (raster_visible_iff st.activeLayers st.layerOpacity "liberal" m
      "cooccurrence" "liberal" (by decide) (by decide) (by decide)).mpr ⟨hcooc, rfl⟩
  · cases hb : ((syncLayers (handleThresholdChange st "liberal").activeLayers
        (handleThresholdChange st "liberal").layerOpacity
        (handleThresholdChange st "liberal").selectedThreshold m)
        "raster-cooccurrence-strict").visibility
    · rfl
    · have := (raster_visible_iff st.activeLayers st.layerOpacity "liberal" m
        "cooccurrence" "strict" (by decide) (by decide) (by decide)).mp hb
      exact absurd this.2 (by decide)

theorem C6_threshold_swap_witness :
    ((syncLayers (handleThresholdChange defaultAppState "liberal").activeLayers
        (handleThresholdChange defaultAppState "liberal").layerOpacity
        (handleThresholdChange defaultAppState "liberal").selectedThreshold
        blankMapState) "raster-cooccurrence-liberal").visibility = true :=
  (C6_threshold_swap defaultAppState blankMapState (by decide) rfl).1

lemma syncLayers_congr_opacity (a : List String) (op op2 : String → Option ℚ)
    (sel : String) (m : MapState)
    (hbb : a.contains "breadbaskets" = true → op2 "breadbaskets" = op "breadbaskets")
    (hco : a.contains "cooccurrence" = true → op2 "cooccurrence" = op "cooccurrence")
    (hbu : ∀ k ∈ burdenLayerKeys, a.contains k = true → op2 k = op k) :
    syncLayers a op2 sel m = syncLayers a op sel m := by
  funext l
  by_cases h1 : l = "breadbaskets-layer"
  · subst h1
    rw [syncLayers_apply_bb, syncLayers_apply_bb]
    cases hc : a.contains "breadbaskets"
    · simp [hc]
    · rw [hbb hc]
  by_cases h2 : l = "raster-cooccurrence-strict"
  · subst h2
    rw [← lidCoocStrict,
      syncLayers_apply_cooc _ _ _ _ _ (by decide),
      syncLayers_apply_cooc _ _ _ _ _ (by decide)]
    cases hc : a.contains "cooccurrence"
    · simp [hc]
    · rw [hco hc]
  by_cases h3 : l = "raster-cooccurrence-liberal"
  · subst h3
    rw [← lidCoocLiberal,
      syncLayers_apply_cooc _ _ _ _ _ (by decide),
      syncLayers_apply_cooc _ _ _ _ _ (by decide)]
    cases hc : a.contains "cooccurrence"
    · simp [hc]
    · rw [hco hc]
  by_cases h4 : l = "raster-env_footprint-strict"
  · subst h4
    rw [← lidEnvStrict,
      syncLayers_apply_burden _ _ _ _ _ _ (by decide) (by decide),
      syncLayers_apply_burden _ _ _ _ _ _ (by decide) (by decide)]
    cases hc : a.contains "env_footprint"
    · simp [hc]
    · rw [hbu "env_footprint" (by decide) hc]
  by_cases h5 : l = "raster-env_footprint-liberal"
  · subst h5
    rw [← lidEnvLiberal,
      syncLayers_apply_burden _ _ _ _ _ _ (by decide) (by decide),
      syncLayers_apply_burden _ _ _ _ _ _ (by decide) (by decide)]
    cases hc : a.contains "env_footprint"
    · simp [hc]
    · rw [hbu "env_footprint" (by decide) hc]
  by_cases h6 : l = "raster-weather_extremes-strict"
  · subst h6
    rw [← lidWeaStrict,
      syncLayers_apply_burden _ _ _ _ _ _ (by decide) (by decide),
      syncLayers_apply_burden _ _ _ _ _ _ (by decide) (by decide)]
    cases hc : a.contains "weather_extremes"
    · simp [hc]
    · rw [hbu "weather_extremes" (by decide) hc]
  by_cases h7 : l = "raster-weather_extremes-liberal"
  · subst h7
    rw [← lidWeaLiberal,
      syncLayers_apply_burden _ _ _ _ _ _ (by decide) (by decide),
      syncLayers_apply_burden _ _ _ _ _ _ (by decide) (by decide)]
    cases hc : a.contains "weather_extremes"
    · simp [hc]
    · rw [hbu "weather_extremes" (by decide) hc]
  by_cases h8 : l = "raster-income_poverty-strict"
  · subst h8
    rw [← lidPovStrict,
      syncLayers_apply_burden _ _ _ _ _ _ (by decide) (by decide),
      syncLayers_apply_burden _ _ _ _ _ _ (by decide) (by decide)]
    cases hc : a.contains "income_poverty"
    · simp [hc]
    · rw [hbu "income_poverty" (by decide) hc]
  by_cases h9 : l = "raster-income_poverty-liberal"
  · subst h9
    rw [← lidPovLiberal,
      syncLayers_apply_burden _ _ _ _ _ _ (by decide) (by decide),
      syncLayers_apply_burden _ _ _ _ _ _ (by decide) (by decide)]
    cases hc : a.contains "income_poverty"
    · simp [hc]
    · rw [hbu "income_poverty" (by decide) hc]
  by_cases h10 : l = "raster-malnutrition-strict"
  · subst h10
    rw [← lidMalStrict,
      syncLayers_apply_burden _ _ _ _ _ _ (by decide) (by decide),
      syncLayers_apply_burden _ _ _ _ _ _ (by decide) (by decide)]
    cases hc : a.contains "malnutrition"
    · simp [hc]
    · rw [hbu "malnutrition" (by decide) hc]
  by_cases h11 : l = "raster-malnutrition-liberal"
  · subst h11
    rw [← lidMalLiberal,
      syncLayers_apply_burden _ _ _ _ _ _ (by decide) (by decide),
      syncLayers_apply_burden _ _ _ _ _ _ (by decide) (by decide)]
    cases hc : a.contains "malnutrition"
    · simp [hc]
    · rw [hbu "malnutrition" (by decide) hc]
  have hl : l ∉ allLayerIds := by
    simp [allLayerIds, h1, h2, h3, h4, h5, h6, h7, h8, h9, h10, h11]
  rw [syncLayers_apply_frame _ _ _ _ _ hl, syncLayers_apply_frame _ _ _ _ _ hl]

/-- Claim C7: changing the stored opacity of a key that is not active does
not change the synchronized map state at all: the rendered layers keep
their applied opacities, and the new value can only take effect once the
key becomes active. -/
theorem C7_inactive_opacity_frame (st : AppState) (m : MapState) (key : String)
    (v : ℚ) (h : key ∉ st.activeLayers) :
    syncLayers (handleOpacityChange st key v).activeLayers
      (handleOpacityChange st key v).layerOpacity
      (handleOpacityChange st key v).selectedThreshold m
      = syncLayers st.activeLayers st.layerOpacity st.selectedThreshold m := by
  show syncLayers st.activeLayers (fun k => if k = key then some v else st.layerOpacity k)
    st.selectedThreshold m = syncLayers st.activeLayers st.layerOpacity st.selectedThreshold m
  refine syncLayers_congr_opacity _ _ _ _ _ (fun hc => ?_) (fun hc => ?_)
    (fun k hk hc => ?_)
  · by_cases hkey : "breadbaskets" = key
    · rw [← hkey] at h
      exact absurd ((contains_iff _ _).mp hc) h
    · simp [hkey]
  · by_cases hkey : "cooccurrence" = key
    · rw [← hkey] at h
      exact absurd ((contains_iff _ _).mp hc) h
    · simp [hkey]
  · by_cases hkey : k = key
    · rw [← hkey] at h
      exact absurd ((contains_iff _ _).mp hc) h
    · simp [hkey]

theorem C7_inactive_opacity_frame_witness :
    syncLayers (handleOpacityChange defaultAppState "env_footprint" 0.25).activeLayers
      (handleOpacityChange defaultAppState "env_footprint" 0.25).layerOpacity
      (handleOpacityChange defaultAppState "env_footprint" 0.25).selectedThreshold
      blankMapState
      = syncLayers defaultAppState.activeLayers defaultAppState.layerOpacity
        defaultAppState.selectedThreshold blankMapState :=
  C7_inactive_opacity_frame defaultAppState blankMapState "env_footprint" 0.25
    (by decide)

/-- Claim C10: for an active key missing from the opacity mapping,
`syncLayers` applies the per-kind fallback opacity (0.9 breadbaskets,
0.75 co-occurrence, 0.7 per burden), and these differ from the root
defaults (DEFAULT_OPACITY has 0.85 for breadbaskets, not 0.9). -/
theorem C10_opacity_defaults (a : List String) (op : String → Option ℚ)
    (sel : String) (m : MapState) (hsel : sel ∈ thresholdKeys) :
    ("breadbaskets" ∈ a → op "breadbaskets" = none →
      (syncLayers a op sel m "breadbaskets-layer").opacity = 0.9
      ∧ (syncLayers a op sel m "breadbaskets-layer").strokeOpacity = 0.9 * 0.5)
    ∧ ("cooccurrence" ∈ a → op "cooccurrence" = none →
      (syncLayers a op sel m ("raster-cooccurrence-" ++ sel)).opacity = 0.75)
    ∧ (∀ key ∈ burdenLayerKeys, key ∈ a → op key = none →
      (syncLayers a op sel m ("raster-" ++ key ++ "-" ++ sel)).opacity = 0.7)
    ∧ DEFAULT_OPACITY "breadbaskets" = some 0.85
    ∧ DEFAULT_OPACITY "breadbaskets" ≠ some 0.9 := by
  have hcopy := hsel
  simp only [thresholdKeys, List.mem_cons, List.not_mem_nil, or_false] at hcopy
  have hne : ¬(sel = "") := by rcases hcopy with rfl | rfl <;> decide
  have hteq : (sel == if sel = "" then "strict" else sel) = true := by
    rw [if_neg hne]
    exact beq_self_eq_true sel
  refine ⟨fun hmem hop => ⟨?_, ?_⟩, fun hmem hop => ?_,
    fun key hkey hmem hop => ?_, rfl,
    by simp only [show DEFAULT_OPACITY "breadbaskets" = some (0.85 : ℚ) from rfl,
         ne_eq, Option.some.injEq]
       norm_num⟩
  · rw [syncLayers_apply_bb, if_pos ((contains_iff _ _).mpr hmem), hop]
    rfl
  · rw [syncLayers_apply_bb, if_pos ((contains_iff _ _).mpr hmem), hop]
    rfl
  · have hct := (contains_iff a "cooccurrence").mpr hmem
    rw [syncLayers_apply_cooc _ _ _ _ _ hsel, if_pos (by simp [hct, hteq, hmem]), hop]
    rfl
  · have hct := (contains_iff a key).mpr hmem
    rw [syncLayers_apply_burden _ _ _ _ _ _ hkey hsel,
      if_pos (by simp [hct, hteq, hmem]), hop]
    rfl

theorem C10_opacity_defaults_witness :
    ((syncLayers ["breadbaskets", "cooccurrence", "env_footprint"] (fun _ => none)
        "strict" blankMapState "breadbaskets-layer").opacity = 0.9
      ∧ (syncLayers ["breadbaskets", "cooccurrence", "env_footprint"] (fun _ => none)
        "strict" blankMapState "breadbaskets-layer").strokeOpacity = 0.9 * 0.5)
    ∧ (syncLayers ["breadbaskets", "cooccurrence", "env_footprint"] (fun _ => none)
        "strict" blankMapState
        ("raster-" ++ "env_footprint" ++ "-" ++ "strict")).opacity = 0.7 :=
  ⟨(C10_opacity_defaults ["breadbaskets", "cooccurrence", "env_footprint"]
      (fun _ => none) "strict" blankMapState (by decide)).1 (by decide) rfl,
   (C10_opacity_defaults ["breadbaskets", "cooccurrence", "env_footprint"]
      (fun _ => none) "strict" blankMapState (by decide)).2.2.1 "env_footprint"
      (by decide) (by decide) rfl⟩

theorem C9_hover_no_default_label :
    FOOD_GROUP_COLORS "oil_palm" = none
    ∧ FOOD_GROUP_COLORS "soy" = none
    ∧ (hoverFoodGroup (some "oil_palm")).color = "#888"
    ∧ (hoverFoodGroup (some "soy")).color = "#888"
    ∧ (hoverFoodGroup (some "oil_palm")).label ≠ (hoverFoodGroup (some "soy")).label
    ∧ (hoverFoodGroup none).label = none := by
  decide

/-- Claim C9 (amended): for a hovered feature whose food-group attribute
is missing or is not a key of the color map, the hover computation is
total (does not fail): the popup color falls back to the fixed default
"#888", the popup label falls back to the raw attribute value (undefined
when the attribute is missing), and a missing production value is
displayed as 0. -/
theorem C9_hover_fallback (groupAttr : Option String)
    (h : groupAttr.bind FOOD_GROUP_COLORS = none) :
    hoverFoodGroup groupAttr = ⟨groupAttr, "#888"⟩
    ∧ hoverProductionValue none = 0 := by
  unfold hoverFoodGroup
  rw [h]
  exact ⟨rfl, rfl⟩

theorem C9_hover_fallback_witness :
    hoverFoodGroup (some "oil_palm") = ⟨some "oil_palm", "#888"⟩
    ∧ hoverProductionValue none = 0 :=
  C9_hover_fallback (some "oil_palm") (by decide)

end Burdens
